import Mathlib

/-
  Verification development for the smart_erp_backend repository.

  The file embeds, as Lean definitions, the parts of the code the claims
  are about:
  * `src/unnamed/part_002` (types/roles.js): ROLE_PERMISSIONS, hasPermission;
  * `src/frontend/src/services/financial/shapeFinancialsByRole.js`;
  * `src/frontend/src/pages/StockMovementPage.jsx`: the role gate on
    movement creation (canCreateMovements / handleSubmit) and the payload
    construction;
  * the backend inventory movement engine (models.py / inventory_service.py),
    which is documented in the repository (spec sections 4 and 5,
    src/unnamed/part_000, src/backend/curl_tests.md) but whose source is not
    in the repository snapshot: those definitions are modelled from the spec
    and are marked as such in their doc comments.
-/

namespace SmartERP

/-! ## Embedding of src/unnamed/part_002 (types/roles.js) -/

/-- Embedding of the `ROLE_PERMISSIONS[ROLES.OWNER]` object literal from
types/roles.js, as an association list of (permission key, boolean value)
in source order. -/
def ownerPermissions : List (String × Bool) :=
  [("canViewRevenue", true),
   ("canViewProfit", true),
   ("canViewOrders", true),
   ("canViewCustomers", true),
   ("canViewSalesChart", true),
   ("canViewInventoryChart", true),
   ("canViewAllTransactions", true),
   ("canViewFinancialDetails", true),
   ("canAccessAccounting", true),
   ("canAccessHR", true),
   ("canAccessSettings", true)]

/-- Embedding of the `ROLE_PERMISSIONS[ROLES.MANAGER]` object literal from
types/roles.js. -/
def managerPermissions : List (String × Bool) :=
  [("canViewRevenue", true),
   ("canViewProfit", false),
   ("canViewOrders", true),
   ("canViewCustomers", true),
   ("canViewSalesChart", true),
   ("canViewInventoryChart", true),
   ("canViewAllTransactions", false),
   ("canViewFinancialDetails", false),
   ("canAccessAccounting", false),
   ("canAccessHR", true),
   ("canAccessSettings", true)]

/-- Embedding of the `ROLE_PERMISSIONS[ROLES.STAFF]` object literal from
types/roles.js. -/
def staffPermissions : List (String × Bool) :=
  [("canViewRevenue", false),
   ("canViewProfit", false),
   ("canViewOrders", true),
   ("canViewCustomers", false),
   ("canViewSalesChart", false),
   ("canViewInventoryChart", true),
   ("canViewAllTransactions", false),
   ("canViewFinancialDetails", false),
   ("canAccessAccounting", false),
   ("canAccessHR", false),
   ("canAccessSettings", false)]

/-! ### JavaScript runtime model for the property accesses

`hasPermission` is one JavaScript expression,
`ROLE_PERMISSIONS[role]?.[permission] || false`, and property access in
JavaScript walks the prototype chain: a key absent from the object's own
keys can still resolve to a property inherited from `Object.prototype`
(`toString`, `hasOwnProperty`, the `__proto__` accessor, ...), and
property access on a restricted function property (`caller`,
`arguments`) throws. The definitions below model exactly the accesses
this expression can perform. -/

/-- A thrown JavaScript exception, identified by its constructor name
and message. -/
structure JsException where
  name : String
  message : String
  deriving DecidableEq

/-- The outcome of evaluating a JavaScript expression: a returned value
or a thrown exception. -/
inductive JsOutcome (α : Type) where
  | value (v : α)
  | thrown (e : JsException)
  deriving DecidableEq

/-- The JavaScript values the accesses of `hasPermission` can produce. -/
inductive JsValue where
  | undefined
  | null
  | boolean (b : Bool)
  | string (s : String)
  | number (n : Int)
  | builtinFun (fname : String)
  | objectProto
  | functionProto
  deriving DecidableEq

/-- JavaScript truthiness of the modelled values: undefined, null, false,
the empty string and zero are falsy; every function and object is
truthy. -/
def JsValue.truthy : JsValue → Bool
  | .undefined => false
  | .null => false
  | .boolean b => b
  | .string s => s ≠ ""
  | .number n => n ≠ 0
  | .builtinFun _ => true
  | .objectProto => true
  | .functionProto => true

/-- Embedding of `x || false`: the left value when truthy, otherwise
`false`. -/
def jsOrFalse (v : JsValue) : JsValue :=
  if v.truthy then v else .boolean false

/-- The function-valued properties every plain object inherits from
`Object.prototype` (besides `constructor` and the `__proto__` accessor,
modelled separately). -/
def objectProtoMethods : List String :=
  ["hasOwnProperty", "isPrototypeOf", "propertyIsEnumerable", "toLocaleString",
   "toString", "valueOf", "__defineGetter__", "__defineSetter__",
   "__lookupGetter__", "__lookupSetter__"]

/-- The `length` own property of the modelled built-in functions. -/
def builtinArity (fname : String) : Int :=
  if fname = "hasOwnProperty" then 1
  else if fname = "isPrototypeOf" then 1
  else if fname = "propertyIsEnumerable" then 1
  else if fname = "__defineGetter__" then 2
  else if fname = "__defineSetter__" then 2
  else if fname = "__lookupGetter__" then 1
  else if fname = "__lookupSetter__" then 1
  else if fname = "apply" then 2
  else if fname = "bind" then 1
  else if fname = "call" then 1
  else if fname = "Object" then 1
  else if fname = "Function" then 1
  else 0

/-- What the property access `ROLE_PERMISSIONS[role]` can evaluate to:
one of the three role permission objects (an own key), a method or the
constructor inherited from `Object.prototype`, `Object.prototype` itself
(through the `__proto__` accessor), or undefined. -/
inductive RoleEntry where
  | permObject (own : List (String × Bool))
  | inheritedMethod (fname : String)
  | objectProto
  | undefined
  deriving DecidableEq

/-- Whether a `ROLE_PERMISSIONS[role]` access hit one of the three role
permission objects. -/
def RoleEntry.isPermObject : RoleEntry → Bool
  | .permObject _ => true
  | _ => false

/-- Embedding of the property access `ROLE_PERMISSIONS[role]`: the object
literal has the three role strings as own keys; any other key continues
on the prototype chain — `constructor`, the `Object.prototype` methods
and `__proto__` resolve to inherited values, and only a full miss is
undefined. -/
def rolePermissionsGet (role : String) : RoleEntry :=
  if role = "owner" then .permObject ownerPermissions
  else if role = "manager" then .permObject managerPermissions
  else if role = "staff" then .permObject staffPermissions
  else if role = "constructor" then .inheritedMethod "Object"
  else if objectProtoMethods.contains role then .inheritedMethod role
  else if role = "__proto__" then .objectProto
  else .undefined

/-- Property access on one of the role permission objects: an own key
yields the stored boolean; otherwise the lookup continues on
`Object.prototype` (whose prototype pointer for this receiver is
`Object.prototype` itself); a full miss is undefined. Plain-object gets
never throw. -/
def permObjectGet (own : List (String × Bool)) (key : String) : JsValue :=
  match own.lookup key with
  | some b => .boolean b
  | none =>
    if key = "constructor" then .builtinFun "Object"
    else if objectProtoMethods.contains key then .builtinFun key
    else if key = "__proto__" then .objectProto
    else .undefined

/-- Property access with `Object.prototype` itself as the receiver (the
`role = "__proto__"` case): its own methods and constructor, and a
`__proto__` of null. -/
def objectProtoOwnGet (key : String) : JsValue :=
  if key = "constructor" then .builtinFun "Object"
  else if objectProtoMethods.contains key then .builtinFun key
  else if key = "__proto__" then .null
  else .undefined

/-- Property access on a built-in function object (the case of a role
string such as "toString" that resolved to an inherited method): the own
`name` and `length` properties, the restricted `caller` and `arguments`
accessors — which throw a TypeError — then `Function.prototype` and
`Object.prototype`. -/
def functionGet (fname : String) (key : String) : JsOutcome JsValue :=
  if key = "caller" || key = "arguments" then
    .thrown { name := "TypeError"
              message := "restricted function properties may not be accessed" }
  else if key = "name" then .value (.string fname)
  else if key = "length" then .value (.number (builtinArity fname))
  else if key = "apply" || key = "bind" || key = "call" then .value (.builtinFun key)
  else if key = "constructor" then .value (.builtinFun "Function")
  else if key = "__proto__" then .value .functionProto
  else if objectProtoMethods.contains key then .value (.builtinFun key)
  else .value .undefined

/-- Embedding of `hasPermission` from types/roles.js:
`ROLE_PERMISSIONS[role]?.[permission] || false`, with JavaScript
property-access semantics. The optional chain turns an undefined base
into undefined (then `|| false` gives false); otherwise the permission
key is read from whatever `ROLE_PERMISSIONS[role]` resolved to — a role
permission object, an inherited method, or `Object.prototype` — and
`|| false` passes a truthy result through unchanged. -/
def hasPermission (role permission : String) : JsOutcome JsValue :=
  match rolePermissionsGet role with
  | .undefined => .value (jsOrFalse .undefined)
  | .permObject own => .value (jsOrFalse (permObjectGet own permission))
  | .inheritedMethod fname =>
    match functionGet fname permission with
    | .thrown e => .thrown e
    | .value v => .value (jsOrFalse v)
  | .objectProto => .value (jsOrFalse (objectProtoOwnGet permission))

/-- The stored boolean of an own permission key of the role's entry, when
both exist. -/
def ownPermission (role permission : String) : Option Bool :=
  match rolePermissionsGet role with
  | .permObject own => own.lookup permission
  | _ => none

/-- Embedding of `isValidRole` from types/roles.js:
`Object.values(ROLES).includes(role)` (an own-value array search, no
prototype involvement). -/
def isValidRole (role : String) : Bool :=
  role = "owner" || role = "manager" || role = "staff"

/-! ## Embedding of shapeFinancialsByRole.js -/

/-- The `summary` sub-object of the raw financial data consumed by
shapeFinancialsByRole.js (the five fields the function copies). -/
structure FinancialSummary where
  totalRevenue : ℚ
  totalExpenses : ℚ
  netProfit : ℚ
  profitMargin : ℚ
  cashOnHand : ℚ
  deriving DecidableEq

/-- The raw financial data object consumed by shapeFinancialsByRole.js.
The three array fields are passed through unchanged by the function, so
their element types are immaterial; they are modelled as lists of
rationals / strings. -/
structure Financials where
  summary : FinancialSummary
  monthlyPerformance : List ℚ
  expenseBreakdown : List ℚ
  recentTransactions : List String
  deriving DecidableEq

/-- Embedding of `shapeFinancialsByRole(rawFinancials, userRole)` as the
module actually evaluates. The file never imports `hasPermission` (its
sibling shaping services all do, on their first line), so once the falsy
guards pass, evaluating the identifier `hasPermission` in the check
`if (!hasPermission(userRole, 'canViewFinancials'))` throws
`ReferenceError: hasPermission is not defined`; the code below that
check, which would re-assemble the financial summary, is unreachable. A
null `rawFinancials` is `none`; a falsy `userRole` is the empty
string. -/
def shapeFinancialsByRole (rawFinancials : Option Financials) (userRole : String) :
    JsOutcome (Option Financials) :=
  match rawFinancials with
  | none => .value none
  | some _ =>
    if userRole = "" then .value none
    else .thrown { name := "ReferenceError", message := "hasPermission is not defined" }

/-- A concrete non-null financial data object. -/
def sampleFinancials : Financials :=
  { summary := { totalRevenue := 45000, totalExpenses := 30000, netProfit := 15000
                 profitMargin := 1 / 3, cashOnHand := 20000 }
    monthlyPerformance := [], expenseBreakdown := [], recentTransactions := [] }

/-! ## Embedding of the StockMovementPage.jsx role gate -/

/-- The four movement types of the inventory engine.  The
StockMovementPage.jsx form offers only RECEIVE, ISSUE and CONSUME;
ADJUST exists in the engine (spec section 4.1) behind a separate
endpoint. -/
inductive MovementType where
  | RECEIVE
  | ISSUE
  | CONSUME
  | ADJUST
  deriving DecidableEq

/-- Embedding of `canCreateMovements = userRole !== 'staff'` from
StockMovementPage.jsx (line 35). -/
def canCreateMovements (userRole : String) : Bool :=
  userRole ≠ "staff"

/-- Embedding of the authorization step at the top of `handleSubmit` in
StockMovementPage.jsx (lines 213-216): a submit by a staff user stops
with the error message before any validation or request, independently of
the chosen movement type; any other role proceeds (`none`). -/
def frontendSubmitGate (userRole : String) (_mt : MovementType) : Option String :=
  if userRole = "staff" then some "Staff users have read-only access" else none

/-- Frontend authorization outcome for one (role, movement type) pair:
`true` when the submit is not stopped by the role gate. By the source it
depends only on the role. The `mt` argument records that the gate is
consulted for every movement type. -/
def frontendAllows (userRole : String) (mt : MovementType) : Bool :=
  (frontendSubmitGate userRole mt).isNone

/-- The three engine roles of spec section 4.1. -/
inductive SpecRole where
  | OWNER
  | MANAGER
  | STAFF
  deriving DecidableEq

/-- The role string carried by the authentication context for each spec
role (`user.role` in the frontend). -/
def roleString : SpecRole → String
  | .OWNER => "owner"
  | .MANAGER => "manager"
  | .STAFF => "staff"

/-- Stated from the spec's words, for comparison with the code: the
authorization matrix of spec section 4.1
(RECEIVE: owner+manager; ISSUE: all three; CONSUME: owner+manager;
ADJUST: owner only). -/
def specAuthorizationMatrix : SpecRole → MovementType → Bool
  | _, .ISSUE => true
  | .OWNER, _ => true
  | .MANAGER, .RECEIVE => true
  | .MANAGER, .CONSUME => true
  | .MANAGER, .ADJUST => false
  | .STAFF, _ => false

/-! ## Spec-modelled inventory movement engine

The backend engine (FastAPI `inventory_service.py`, documented in
src/unnamed/part_000 and src/backend/curl_tests.md) is not part of the
repository snapshot under src/; the definitions below are modelled from
spec sections 3, 4, 5 and 7. -/

/-- Modelled from the spec: the error taxonomy of spec section 7.
`deprecatedFieldError` is the distinct ValidationError variant naming a
deprecated field (spec section 4.2). The backend source
(inventory_service.py) is missing from src/. -/
inductive EngineError where
  | validationError (message : String)
  | deprecatedFieldError (field : String)
  | authorizationError
  | referenceError (what : String)
  | insufficientStockError
  deriving DecidableEq

/-- Work-order lifecycle states (spec section 3). -/
inductive WorkOrderStatus where
  | DRAFT
  | OPEN
  | CLOSED
  deriving DecidableEq

/-- Modelled from the spec: the WorkOrder entity of spec section 3
(id, wo_number, title, status, cost_center, cost_element); the backend
model source is missing from src/. -/
structure WorkOrder where
  id : Nat
  woNumber : String
  title : String
  status : WorkOrderStatus
  costCenter : String
  costElement : String
  deriving DecidableEq

/-- Modelled from the spec: the CostCenter master-data entity of spec
section 3; the backend model source is missing from src/. -/
structure CostCenter where
  id : Nat
  code : String
  name : String
  isActive : Bool
  deriving DecidableEq

/-- Modelled from the spec: the CostElement master-data entity of spec
section 3; the backend model source is missing from src/. -/
structure CostElement where
  id : Nat
  code : String
  name : String
  isActive : Bool
  deriving DecidableEq

/-- The master data the Reference Resolver consults (spec section 4.4). -/
structure MasterData where
  costCenters : List CostCenter
  costElements : List CostElement
  workOrders : List WorkOrder
  deriving DecidableEq

def findCostCenter (md : MasterData) (ccId : Nat) : Option CostCenter :=
  md.costCenters.find? (fun c => c.id == ccId)

def findCostElement (md : MasterData) (ceId : Nat) : Option CostElement :=
  md.costElements.find? (fun c => c.id == ceId)

def findWorkOrder (md : MasterData) (woId : Nat) : Option WorkOrder :=
  md.workOrders.find? (fun w => w.id == woId)

/-- The configured input units. The StockMovementPage.jsx form offers PCS
and DOZEN; spec section 4.3 gives DOZEN = 12 × PCS. -/
inductive StockUnit where
  | PCS
  | DOZEN
  deriving DecidableEq

/-- Modelled from the spec: the fixed conversion-factor table of the Unit
Converter (spec section 4.3); the backend source is missing from src/. -/
def conversionFactor : StockUnit → ℚ
  | .PCS => 1
  | .DOZEN => 12

/-- Modelled from the spec: the Unit Converter of spec section 4.3.
`qty_base = qty_input × factor(unit_input)` and
`unit_cost_base = unit_cost_input ÷ factor(unit_input)`. -/
def convertToBase (qtyInput : ℚ) (unitInput : StockUnit) (unitCostInput : ℚ) : ℚ × ℚ :=
  (qtyInput * conversionFactor unitInput, unitCostInput / conversionFactor unitInput)

/-- A movement request as received at the boundary (spec section 6), with
the deprecated legacy string-coded cost fields still representable, as in
the transitional input shape of spec section 9. -/
structure MovementRequest where
  productId : Nat
  movementType : MovementType
  qtyInput : ℚ
  unitInput : StockUnit
  unitCostInput : Option ℚ
  costCenterId : Option Nat
  costElementId : Option Nat
  workOrderId : Option Nat
  legacyCostCenter : Option String
  legacyCostElement : Option String
  note : Option String
  deriving DecidableEq

/-- A validated, unit-converted, cost-allocated movement intent as handed
to the Ledger Writer (spec section 4.5): `qtyBase` already carries the
correct sign for the movement type. -/
structure MovementIntent where
  productId : Nat
  movementType : MovementType
  qtyInput : ℚ
  unitInput : StockUnit
  qtyBase : ℚ
  unitCostInput : Option ℚ
  unitCostBase : Option ℚ
  valueTotal : ℚ
  costCenterRef : Option String
  costElementRef : Option Nat
  workOrderId : Option Nat
  note : Option String
  deriving DecidableEq

/-- The immutable StockMovement audit record (spec section 3), stamped
with `balanceAfter`, the on-hand balance immediately after the movement. -/
structure StockMovement where
  productId : Nat
  movementType : MovementType
  qtyInput : ℚ
  unitInput : StockUnit
  qtyBase : ℚ
  unitCostInput : Option ℚ
  unitCostBase : Option ℚ
  valueTotal : ℚ
  balanceAfter : ℚ
  costCenterRef : Option String
  costElementRef : Option Nat
  workOrderId : Option Nat
  note : Option String
  deriving DecidableEq

/-- The persistent state owned by the Ledger Writer: the append-only
movement list in commit order, and the per-product on-hand balance
(StockBalance rows, created lazily at zero). -/
structure LedgerState where
  movements : List StockMovement
  onHand : Nat → ℚ

/-- The empty ledger: no movements, every balance zero. -/
def initialLedger : LedgerState :=
  { movements := [], onHand := fun _ => 0 }

/-- The StockMovement record persisted for an intent, stamped with the
balance snapshot taken immediately after the movement. -/
def intentRecord (m : MovementIntent) (balanceAfter : ℚ) : StockMovement :=
  { productId := m.productId
    movementType := m.movementType
    qtyInput := m.qtyInput
    unitInput := m.unitInput
    qtyBase := m.qtyBase
    unitCostInput := m.unitCostInput
    unitCostBase := m.unitCostBase
    valueTotal := m.valueTotal
    balanceAfter := balanceAfter
    costCenterRef := m.costCenterRef
    costElementRef := m.costElementRef
    workOrderId := m.workOrderId
    note := m.note }

/-- Modelled from the spec: the Ledger Writer of spec section 4.5:
computes `new_on_hand = on_hand + qty_base`, rejects with
InsufficientStockError when `new_on_hand < 0`, otherwise atomically
appends the movement record stamped with `balance_after = new_on_hand`
and updates the balance row. The backend source is missing from src/. -/
def ledgerWrite (s : LedgerState) (m : MovementIntent) : Except EngineError LedgerState :=
  let newOnHand := s.onHand m.productId + m.qtyBase
  if newOnHand < 0 then
    .error .insufficientStockError
  else
    .ok { movements := s.movements ++ [intentRecord m newOnHand]
          onHand := fun p => if p = m.productId then newOnHand else s.onHand p }

/-- Modelled from the spec: the deprecated-input rule of spec section 4.2:
a request supplying a legacy string-coded `cost_center` or `cost_element`
field is rejected with the ValidationError variant naming the deprecated
field. The backend source is missing from src/. -/
def checkDeprecatedFields (r : MovementRequest) : Except EngineError Unit :=
  match r.legacyCostCenter with
  | some _ => .error (.deprecatedFieldError "cost_center")
  | none =>
    match r.legacyCostElement with
    | some _ => .error (.deprecatedFieldError "cost_element")
    | none => .ok ()

/-- Modelled from the spec: RECEIVE validation and conversion (spec
sections 4.2 and 4.3): `qty_input > 0`, `unit_cost_input` required and
positive, no cost-center/cost-element/work-order fields accepted; any
configured unit may be used. The backend source is missing from src/. -/
def validateReceive (r : MovementRequest) : Except EngineError MovementIntent :=
  if r.qtyInput ≤ 0 then .error (.validationError "qty_input must be > 0")
  else
    match r.unitCostInput with
    | none => .error (.validationError "unit_cost_input is required for RECEIVE")
    | some c =>
      if c ≤ 0 then .error (.validationError "unit_cost_input must be > 0")
      else if r.costCenterId.isSome || r.costElementId.isSome || r.workOrderId.isSome then
        .error (.validationError "cost or work-order fields are not accepted for RECEIVE")
      else
        let qb := (convertToBase r.qtyInput r.unitInput c).1
        let cb := (convertToBase r.qtyInput r.unitInput c).2
        .ok { productId := r.productId
              movementType := .RECEIVE
              qtyInput := r.qtyInput
              unitInput := r.unitInput
              qtyBase := qb
              unitCostInput := some c
              unitCostBase := some cb
              valueTotal := qb * cb
              costCenterRef := none
              costElementRef := none
              workOrderId := none
              note := r.note }

/-- Modelled from the spec: ISSUE validation and cost allocation (spec
sections 4.2 and 4.4): `qty_input > 0`, base unit only, `cost_center_id`
and `cost_element_id` both required and resolving to active rows;
`qty_base` is negative. The backend source is missing from src/. -/
def validateIssue (md : MasterData) (r : MovementRequest) : Except EngineError MovementIntent :=
  if r.qtyInput ≤ 0 then .error (.validationError "qty_input must be > 0")
  else if r.unitInput ≠ .PCS then .error (.validationError "ISSUE movements use the base unit only")
  else
    match r.costCenterId with
    | none => .error (.validationError "cost_center_id is required for ISSUE")
    | some ccId =>
      match r.costElementId with
      | none => .error (.validationError "cost_element_id is required for ISSUE")
      | some ceId =>
        match findCostCenter md ccId with
        | none => .error (.referenceError "cost_center")
        | some cc =>
          if cc.isActive = false then .error (.referenceError "cost_center")
          else
            match findCostElement md ceId with
            | none => .error (.referenceError "cost_element")
            | some ce =>
              if ce.isActive = false then .error (.referenceError "cost_element")
              else
                .ok { productId := r.productId
                      movementType := .ISSUE
                      qtyInput := r.qtyInput
                      unitInput := .PCS
                      qtyBase := -r.qtyInput
                      unitCostInput := none
                      unitCostBase := none
                      valueTotal := 0
                      costCenterRef := some cc.code
                      costElementRef := some ce.id
                      workOrderId := none
                      note := r.note }

/-- Modelled from the spec: CONSUME validation and cost allocation (spec
sections 4.2 and 4.4): `qty_input > 0`, base unit only, `work_order_id`
required and resolving to an OPEN work order (ReferenceError otherwise),
`cost_element_id` required and active; the cost center is derived from
the work order, and a caller-supplied cost center is ignored — this
definition never reads `r.costCenterId`. The backend source is missing
from src/. -/
def validateConsume (md : MasterData) (r : MovementRequest) : Except EngineError MovementIntent :=
  if r.qtyInput ≤ 0 then .error (.validationError "qty_input must be > 0")
  else if r.unitInput ≠ .PCS then .error (.validationError "CONSUME movements use the base unit only")
  else
    match r.workOrderId with
    | none => .error (.validationError "work_order_id is required for CONSUME")
    | some woId =>
      match r.costElementId with
      | none => .error (.validationError "cost_element_id is required for CONSUME")
      | some ceId =>
        match findWorkOrder md woId with
        | none => .error (.referenceError "work_order")
        | some wo =>
          if wo.status ≠ .OPEN then .error (.referenceError "work_order")
          else
            match findCostElement md ceId with
            | none => .error (.referenceError "cost_element")
            | some ce =>
              if ce.isActive = false then .error (.referenceError "cost_element")
              else
                .ok { productId := r.productId
                      movementType := .CONSUME
                      qtyInput := r.qtyInput
                      unitInput := .PCS
                      qtyBase := -r.qtyInput
                      unitCostInput := none
                      unitCostBase := none
                      valueTotal := 0
                      costCenterRef := some wo.costCenter
                      costElementRef := some ce.id
                      workOrderId := some wo.id
                      note := r.note }

/-- Modelled from the spec: ADJUST validation (spec section 4.2):
`qty_input` may be positive or negative but not zero, no unit cost, base
unit only, no cost allocation. The backend source is missing from src/. -/
def validateAdjust (r : MovementRequest) : Except EngineError MovementIntent :=
  if r.qtyInput = 0 then .error (.validationError "qty_input must be non-zero")
  else if r.unitInput ≠ .PCS then .error (.validationError "ADJUST movements use the base unit only")
  else if r.unitCostInput.isSome then .error (.validationError "unit_cost_input is not accepted for ADJUST")
  else
    .ok { productId := r.productId
          movementType := .ADJUST
          qtyInput := r.qtyInput
          unitInput := .PCS
          qtyBase := r.qtyInput
          unitCostInput := none
          unitCostBase := none
          valueTotal := 0
          costCenterRef := none
          costElementRef := none
          workOrderId := none
          note := r.note }

/-- The Movement Validator / Unit Converter / Cost Allocator stages,
dispatched by movement type (spec sections 4.2 to 4.4). -/
def validateAndAllocate (md : MasterData) (r : MovementRequest) :
    Except EngineError MovementIntent :=
  match r.movementType with
  | .RECEIVE => validateReceive r
  | .ISSUE => validateIssue md r
  | .CONSUME => validateConsume md r
  | .ADJUST => validateAdjust r

/-- Modelled from the spec: the Authorization Gate of spec section 4.1,
the first gate evaluated; its table is `specAuthorizationMatrix`. The
backend source is missing from src/. -/
def authorizationGate (role : SpecRole) (mt : MovementType) : Bool :=
  specAuthorizationMatrix role mt

/-- Modelled from the spec: the full movement pipeline of spec section 2:
Authorization Gate, then the deprecated-input rule and the Movement
Validator / Unit Converter / Cost Allocator, then the Ledger Writer.
Every failing stage aborts with the typed error and leaves the ledger
untouched; only a fully successful request commits the new state. -/
def processMovement (role : SpecRole) (md : MasterData) (s : LedgerState)
    (r : MovementRequest) : LedgerState × Option EngineError :=
  if authorizationGate role r.movementType = false then
    (s, some .authorizationError)
  else
    match checkDeprecatedFields r with
    | .error e => (s, some e)
    | .ok _ =>
      match validateAndAllocate md r with
      | .error e => (s, some e)
      | .ok intent =>
        match ledgerWrite s intent with
        | .error e => (s, some e)
        | .ok newState => (newState, none)

/-- The ledger states reachable from the empty ledger by any sequence of
movement requests, from any role and against any master data; failed
requests leave the state unchanged. -/
inductive Reachable : LedgerState → Prop where
  | init : Reachable initialLedger
  | step {s : LedgerState} (role : SpecRole) (md : MasterData) (r : MovementRequest) :
      Reachable s → Reachable (processMovement role md s r).1

/-! ## Ledger history bookkeeping -/

/-- The committed movements of one product, in commit order. -/
def movementsFor (p : Nat) (s : LedgerState) : List StockMovement :=
  s.movements.filter (fun m => m.productId == p)

/-- Sum of the signed base quantities of a movement list. -/
def sumQty (l : List StockMovement) : ℚ :=
  (l.map (fun m => m.qtyBase)).sum

/-- Each record in the list carries `balanceAfter` equal to the running
prefix sum of `qtyBase`, starting from the accumulator `acc`. -/
def balancesOk : List StockMovement → ℚ → Bool
  | [], _ => true
  | m :: rest, acc => (m.balanceAfter == acc + m.qtyBase) && balancesOk rest (acc + m.qtyBase)

/-- The work order a request refers to, when its `work_order_id` is
present and resolves in the master data. -/
def requestWorkOrder (md : MasterData) (r : MovementRequest) : Option WorkOrder :=
  r.workOrderId.bind (findWorkOrder md)

/-! ## Spec-modelled product creation rule -/

/-- Product classification (spec section 3). -/
inductive ProductType where
  | PRODUCT
  | MATERIAL
  | CONSUMABLE
  deriving DecidableEq

/-- The payload of a product-creation request (spec sections 3 and 6; the
frontend caller is `createProduct` in the Products API service,
src/unnamed/part_006). -/
structure ProductInput where
  name : String
  sku : String
  productType : ProductType
  baseUnit : StockUnit
  cost : ℚ
  price : Option ℚ
  deriving DecidableEq

/-- Modelled from the spec: the product-creation validation of spec
section 4.2 — a MATERIAL product must have cost ≥ 1.00, otherwise the
request fails with a ValidationError and no product is created (error
message from src/backend/curl_tests.md). The backend source is missing
from src/. -/
def createProduct (p : ProductInput) : Except EngineError ProductInput :=
  if p.productType = .MATERIAL ∧ p.cost < 1 then
    .error (.validationError "Material cost must be >= 1.00 THB")
  else
    .ok p

/-! ## Concrete sample data used by the scenario theorems -/

/-- A CLOSED work order, as in spec scenario 4. -/
def woClosed : WorkOrder :=
  { id := 7, woNumber := "WO-007", title := "Closed job", status := .CLOSED
    costCenter := "CC-PROD", costElement := "CE-MAT" }

/-- An OPEN work order accepting consumption. -/
def woOpen : WorkOrder :=
  { id := 8, woNumber := "WO-008", title := "Open job", status := .OPEN
    costCenter := "CC-PROD", costElement := "CE-MAT" }

/-- Master data with one active cost center, one active cost element and
the two work orders above. -/
def sampleMD : MasterData :=
  { costCenters := [{ id := 1, code := "CC-PROD", name := "Production", isActive := true }]
    costElements := [{ id := 1, code := "CE-MAT", name := "Materials", isActive := true }]
    workOrders := [woClosed, woOpen] }

/-- A RECEIVE request for 100 PCS of product 1 at unit cost 25.50
(spec scenario 2). -/
def receive100 : MovementRequest :=
  { productId := 1, movementType := .RECEIVE, qtyInput := 100, unitInput := .PCS
    unitCostInput := some (51 / 2), costCenterId := none, costElementId := none
    workOrderId := none, legacyCostCenter := none, legacyCostElement := none
    note := none }

/-- The intent the validator and converter produce for `receive100`. -/
def receive100Intent : MovementIntent :=
  { productId := 1, movementType := .RECEIVE, qtyInput := 100, unitInput := .PCS
    qtyBase := 100, unitCostInput := some (51 / 2), unitCostBase := some (51 / 2)
    valueTotal := 2550, costCenterRef := none, costElementRef := none
    workOrderId := none, note := none }

/-- A CONSUME request of 5 PCS of product 1 against the CLOSED work
order 7 (spec scenario 4). -/
def consumeClosedReq : MovementRequest :=
  { productId := 1, movementType := .CONSUME, qtyInput := 5, unitInput := .PCS
    unitCostInput := none, costCenterId := none, costElementId := some 1
    workOrderId := some 7, legacyCostCenter := none, legacyCostElement := none
    note := none }

/-- A CONSUME request of 5 PCS of product 1 against the OPEN work
order 8. -/
def consumeOpenReq : MovementRequest :=
  { productId := 1, movementType := .CONSUME, qtyInput := 5, unitInput := .PCS
    unitCostInput := none, costCenterId := none, costElementId := some 1
    workOrderId := some 8, legacyCostCenter := none, legacyCostElement := none
    note := none }

/-- The intent the validator and allocator produce for `consumeOpenReq`:
the cost center is the one of work order 8. -/
def consumeOpenIntent : MovementIntent :=
  { productId := 1, movementType := .CONSUME, qtyInput := 5, unitInput := .PCS
    qtyBase := -5, unitCostInput := none, unitCostBase := none
    valueTotal := 0, costCenterRef := some "CC-PROD", costElementRef := some 1
    workOrderId := some 8, note := none }

/-- An ISSUE request of 60 PCS of product 1 (first of the two concurrent
requests of the spec's concurrency scenario). -/
def issue60A : MovementRequest :=
  { productId := 1, movementType := .ISSUE, qtyInput := 60, unitInput := .PCS
    unitCostInput := none, costCenterId := some 1, costElementId := some 1
    workOrderId := none, legacyCostCenter := none, legacyCostElement := none
    note := some "request A" }

/-- The second of the two concurrent ISSUE requests. -/
def issue60B : MovementRequest :=
  { productId := 1, movementType := .ISSUE, qtyInput := 60, unitInput := .PCS
    unitCostInput := none, costCenterId := some 1, costElementId := some 1
    workOrderId := none, legacyCostCenter := none, legacyCostElement := none
    note := some "request B" }

/-- A ledger state in which product 1 has 100 on hand. -/
def s100 : LedgerState :=
  { movements := [], onHand := fun p => if p = 1 then 100 else 0 }

/-- An intent whose signed quantity would drive the (empty) balance of
product 0 negative. -/
def negIntent : MovementIntent :=
  { productId := 0, movementType := .ISSUE, qtyInput := 1, unitInput := .PCS
    qtyBase := -1, unitCostInput := none, unitCostBase := none, valueTotal := 0
    costCenterRef := none, costElementRef := none, workOrderId := none, note := none }

/-- A RECEIVE request carrying the deprecated string-coded `cost_center`
field (spec scenario 5 uses ISSUE; the rule applies to every movement
request). -/
def legacyFieldReq : MovementRequest :=
  { productId := 1, movementType := .ISSUE, qtyInput := 3, unitInput := .PCS
    unitCostInput := none, costCenterId := none, costElementId := some 1
    workOrderId := none, legacyCostCenter := some "CC-PROD"
    legacyCostElement := none, note := none }

/-- A MATERIAL product priced below the floor (spec scenario 1). -/
def cheapMaterial : ProductInput :=
  { name := "Cheap Material", sku := "CHEAP-MAT", productType := .MATERIAL
    baseUnit := .PCS, cost := 1 / 2, price := none }

/-- A MATERIAL product at cost 25.50, above the floor. -/
def steelRod : ProductInput :=
  { name := "Steel Rod 10mm", sku := "STL-10MM", productType := .MATERIAL
    baseUnit := .PCS, cost := 51 / 2, price := none }

/-! ## Helper lemmas on the engine -/

/-- A movement request either leaves the ledger untouched (any failing
stage) or commits exactly one successful ledger write. -/
theorem processMovement_cases (role : SpecRole) (md : MasterData) (s : LedgerState)
    (r : MovementRequest) :
    (processMovement role md s r).1 = s ∨
    ∃ m s2, ledgerWrite s m = .ok s2 ∧ processMovement role md s r = (s2, none) := by
  unfold processMovement
  split
  · exact Or.inl rfl
  split
  · exact Or.inl rfl
  split
  · exact Or.inl rfl
  rename_i intent heq
  split
  · exact Or.inl rfl
  rename_i s2 hw
  exact Or.inr ⟨intent, s2, hw, rfl⟩

/-- A request that reports an error commits nothing: the resulting state
is the input state. -/
theorem processMovement_error_no_change (role : SpecRole) (md : MasterData)
    (s : LedgerState) (r : MovementRequest)
    (h : (processMovement role md s r).2 ≠ none) :
    (processMovement role md s r).1 = s := by
  rcases processMovement_cases role md s r with hc | ⟨m, s2, _, hp⟩
  · exact hc
  · rw [hp] at h
    exact absurd rfl h

/-- Any property of the ledger that holds initially and is preserved by
every successful ledger write holds in every reachable state. -/
theorem reachable_invariant {P : LedgerState → Prop}
    (hinit : P initialLedger)
    (hwrite : ∀ s m s2, P s → ledgerWrite s m = .ok s2 → P s2) :
    ∀ {s : LedgerState}, Reachable s → P s := by
  intro s hs
  induction hs with
  | init => exact hinit
  | step role md r _ ih =>
    rcases processMovement_cases role md _ r with hc | ⟨m, s2, hw, hp⟩
    · rw [hc]; exact ih
    · rw [hp]; exact hwrite _ m s2 ih hw

/-- Inversion for a successful ledger write: the guard held and the new
state is the old one with the stamped record appended and the one balance
row updated. -/
theorem ledgerWrite_ok_spec {s : LedgerState} {m : MovementIntent} {s2 : LedgerState}
    (h : ledgerWrite s m = .ok s2) :
    0 ≤ s.onHand m.productId + m.qtyBase ∧
    s2.movements = s.movements ++ [intentRecord m (s.onHand m.productId + m.qtyBase)] ∧
    s2.onHand = fun p =>
      if p = m.productId then s.onHand m.productId + m.qtyBase else s.onHand p := by
  unfold ledgerWrite at h
  dsimp only at h
  split at h
  · exact absurd h (by simp)
  · rename_i hlt
    refine ⟨le_of_not_lt hlt, ?_, ?_⟩
    · have := congrArg LedgerState.movements (Except.ok.inj h)
      simpa using this.symm
    · have := congrArg LedgerState.onHand (Except.ok.inj h)
      simpa using this.symm

/-- A write whose signed quantity would drive the balance negative is
rejected with InsufficientStockError. -/
theorem ledgerWrite_insufficient {s : LedgerState} {m : MovementIntent}
    (h : s.onHand m.productId + m.qtyBase < 0) :
    ledgerWrite s m = .error .insufficientStockError := by
  unfold ledgerWrite
  simp [h]

/-- The on-hand balance of every product is non-negative in every
reachable ledger state. -/
theorem reachable_onHand_nonneg {s : LedgerState} (hs : Reachable s) :
    ∀ p, 0 ≤ s.onHand p := by
  refine reachable_invariant (P := fun t => ∀ p, 0 ≤ t.onHand p) ?_ ?_ hs
  · intro p
    simp [initialLedger]
  · intro t m t2 ih hw p
    obtain ⟨hge, -, honh⟩ := ledgerWrite_ok_spec hw
    rw [honh]
    by_cases hp : p = m.productId
    · simp [hp, hge]
    · simp [hp]
      exact ih p

theorem sumQty_append (l : List StockMovement) (m : StockMovement) :
    sumQty (l ++ [m]) = sumQty l + m.qtyBase := by
  simp [sumQty]

theorem balancesOk_append (l : List StockMovement) (m : StockMovement) (a : ℚ) :
    balancesOk (l ++ [m]) a =
      (balancesOk l a && (m.balanceAfter == a + sumQty l + m.qtyBase)) := by
  induction l generalizing a with
  | nil => simp [balancesOk, sumQty]
  | cons x xs ih =>
    simp only [List.cons_append, balancesOk, List.append_eq, ih, Bool.and_assoc]
    have hq : a + x.qtyBase + sumQty xs = a + sumQty (x :: xs) := by
      simp only [sumQty, List.map_cons, List.sum_cons]
      ring
    rw [hq]

/-- In every reachable ledger state, for every product, the balance row
equals the sum of the product's committed `qtyBase` values, and every
record's `balanceAfter` equals the prefix sum of `qtyBase` up to and
including that record. -/
theorem reachable_history_invariant {s : LedgerState} (hs : Reachable s) :
    ∀ p, s.onHand p = sumQty (movementsFor p s) ∧ balancesOk (movementsFor p s) 0 = true := by
  refine reachable_invariant
    (P := fun t => ∀ p, t.onHand p = sumQty (movementsFor p t) ∧
      balancesOk (movementsFor p t) 0 = true) ?_ ?_ hs
  · intro p
    simp [initialLedger, movementsFor, sumQty, balancesOk]
  · intro t m t2 ih hw p
    obtain ⟨-, hmov, honh⟩ := ledgerWrite_ok_spec hw
    have hfilter : movementsFor p t2 =
        movementsFor p t ++
          (if m.productId = p then [intentRecord m (t.onHand m.productId + m.qtyBase)] else []) := by
      simp only [movementsFor, hmov, List.filter_append]
      congr 1
      by_cases hp : m.productId = p
      · simp [List.filter_cons, intentRecord, hp]
      · simp [List.filter_cons, intentRecord, hp]
    obtain ⟨hsum, hbal⟩ := ih p
    by_cases hp : p = m.productId
    · have hon2 : t2.onHand p = t.onHand m.productId + m.qtyBase := by
        rw [honh]
        simp [hp]
      constructor
      · rw [hon2, hfilter, if_pos hp.symm, sumQty_append]
        simp only [intentRecord]
        rw [← hp, hsum]
      · rw [hfilter, if_pos hp.symm, balancesOk_append, hbal]
        simp only [Bool.true_and, beq_iff_eq, intentRecord]
        rw [← hp, hsum]
        ring
    · have hcond : ¬ m.productId = p := fun h => hp h.symm
      have hon2 : t2.onHand p = t.onHand p := by
        rw [honh]
        simp [hp]
      rw [hfilter, if_neg hcond, List.append_nil, hon2]
      exact ⟨hsum, hbal⟩

/-! ## Evaluation lemmas for the sample master data -/

theorem findWorkOrder_sample_7 : findWorkOrder sampleMD 7 = some woClosed := rfl

theorem findWorkOrder_sample_8 : findWorkOrder sampleMD 8 = some woOpen := rfl

theorem findCostCenter_sample_1 : findCostCenter sampleMD 1 =
    some { id := 1, code := "CC-PROD", name := "Production", isActive := true } := rfl

theorem findCostElement_sample_1 : findCostElement sampleMD 1 =
    some { id := 1, code := "CE-MAT", name := "Materials", isActive := true } := rfl

/-! ## Claim C1 -/

/-- Claim C1 counterexample: the spec section 4.1 matrix allows a STAFF
user to create an ISSUE movement, but the movement-creation authorization
code in the repository (the StockMovementPage.jsx gate) denies every
movement creation for the staff role, ISSUE included. -/
theorem c1_staff_issue_counterexample :
    specAuthorizationMatrix .STAFF .ISSUE = true ∧
    frontendAllows (roleString .STAFF) .ISSUE = false :=
  ⟨rfl, by decide⟩

/-- Claim C1 (amended): the frontend authorization outcome for movement
creation depends only on the role — allow exactly when the role is not
the staff string — so it matches the section 4.1 matrix at every pair
over the three offered movement types except (STAFF, ISSUE), which the
matrix allows and the code denies; every denial produces the read-only
error before any validation or request. -/
theorem c1_frontend_gate_role_only :
    (∀ (role : String) (mt : MovementType),
        frontendAllows role mt = canCreateMovements role) ∧
    (∀ (role : SpecRole) (mt : MovementType), mt ≠ .ADJUST →
        frontendAllows (roleString role) mt =
          (if role = .STAFF ∧ mt = .ISSUE then false
           else specAuthorizationMatrix role mt)) ∧
    (∀ (role : String) (mt : MovementType), frontendAllows role mt = false →
        frontendSubmitGate role mt = some "Staff users have read-only access") := by
  refine ⟨?_, ?_, ?_⟩
  · intro role mt
    unfold frontendAllows frontendSubmitGate canCreateMovements
    by_cases h : role = "staff" <;> simp [h]
  · intro role mt
    cases role <;> cases mt <;> decide
  · intro role mt h
    by_cases hr : role = "staff"
    · simp [frontendSubmitGate, hr]
    · simp [frontendAllows, frontendSubmitGate, hr] at h

/-- Concrete instance of `c1_frontend_gate_role_only`. -/
theorem c1_frontend_gate_role_only_witness :
    frontendAllows (roleString .STAFF) .ISSUE =
      (if SpecRole.STAFF = .STAFF ∧ MovementType.ISSUE = .ISSUE then false
       else specAuthorizationMatrix .STAFF .ISSUE) ∧
    frontendSubmitGate "staff" .ISSUE = some "Staff users have read-only access" :=
  ⟨c1_frontend_gate_role_only.2.1 .STAFF .ISSUE (by decide),
   c1_frontend_gate_role_only.2.2 "staff" .ISSUE (by decide)⟩

/-! ## Claim C2 -/

/-- Claim C2: a movement whose signed base quantity would make the
product's balance negative is rejected by the Ledger Writer with
InsufficientStockError; every rejected request leaves the ledger exactly
as it was (no record, no balance change); and in every reachable ledger
state every on-hand balance is non-negative. -/
theorem c2_no_negative_on_hand :
    (∀ (s : LedgerState) (m : MovementIntent),
        s.onHand m.productId + m.qtyBase < 0 →
        ledgerWrite s m = .error .insufficientStockError) ∧
    (∀ (role : SpecRole) (md : MasterData) (s : LedgerState) (r : MovementRequest),
        (processMovement role md s r).2 ≠ none → (processMovement role md s r).1 = s) ∧
    (∀ (s : LedgerState), Reachable s → ∀ p, 0 ≤ s.onHand p) :=
  ⟨fun _ _ h => ledgerWrite_insufficient h,
   fun role md s r h => processMovement_error_no_change role md s r h,
   fun _ hs => reachable_onHand_nonneg hs⟩

/-- Concrete instance of `c2_no_negative_on_hand`: issuing one unit from
an empty ledger is rejected, a denied request changes nothing, and the
initial balance is non-negative. -/
theorem c2_no_negative_on_hand_witness :
    ledgerWrite initialLedger negIntent = .error .insufficientStockError ∧
    (processMovement .STAFF sampleMD initialLedger receive100).1 = initialLedger ∧
    0 ≤ initialLedger.onHand 0 := by
  refine ⟨?_, ?_, ?_⟩
  · exact c2_no_negative_on_hand.1 initialLedger negIntent
      (by norm_num [initialLedger, negIntent])
  · refine c2_no_negative_on_hand.2.1 .STAFF sampleMD initialLedger receive100 ?_
    norm_num [processMovement, authorizationGate, specAuthorizationMatrix, receive100]
    intro hx
    exact Option.noConfusion hx
  · exact c2_no_negative_on_hand.2.2 initialLedger Reachable.init 0

/-! ## Claim C3 -/

/-- Claim C3: in every reachable ledger state, for every product, the
balance row equals the sum of `qtyBase` over the product's committed
movements in commit order, and each record's `balanceAfter` equals the
prefix sum of `qtyBase` up to and including that record. -/
theorem c3_balance_prefix_sum :
    ∀ (s : LedgerState), Reachable s → ∀ p : Nat,
      s.onHand p = sumQty (movementsFor p s) ∧
      balancesOk (movementsFor p s) 0 = true :=
  fun _ hs => reachable_history_invariant hs

/-- Concrete instance of `c3_balance_prefix_sum` after one committed
RECEIVE movement. -/
theorem c3_balance_prefix_sum_witness :
    (processMovement .OWNER sampleMD initialLedger receive100).1.onHand 1 =
      sumQty (movementsFor 1 (processMovement .OWNER sampleMD initialLedger receive100).1) ∧
    balancesOk (movementsFor 1 (processMovement .OWNER sampleMD initialLedger receive100).1) 0
      = true :=
  c3_balance_prefix_sum _ (Reachable.step .OWNER sampleMD receive100 Reachable.init) 1

/-! ## Claim C4 -/

/-- Total value is invariant under the unit conversion. -/
theorem convert_value_invariant (u : StockUnit) (qty cost : ℚ) :
    (qty * conversionFactor u) * (cost / conversionFactor u) = qty * cost := by
  cases u
  · simp [conversionFactor]
  · simp only [conversionFactor]
    ring

/-- Claim C4: the Unit Converter satisfies
`qty_base = qty_input × factor(unit_input)` and
`unit_cost_base = unit_cost_input ÷ factor(unit_input)`, hence
`qty_base × unit_cost_base = qty_input × unit_cost_input` for every
supported input unit; and every RECEIVE intent produced by the validator
carries exactly these converted values. -/
theorem c4_unit_conversion_round_trip :
    (∀ (u : StockUnit) (qty cost : ℚ),
        (convertToBase qty u cost).1 = qty * conversionFactor u ∧
        (convertToBase qty u cost).2 = cost / conversionFactor u ∧
        (convertToBase qty u cost).1 * (convertToBase qty u cost).2 = qty * cost) ∧
    (∀ (r : MovementRequest) (m : MovementIntent) (c : ℚ),
        validateReceive r = .ok m → r.unitCostInput = some c →
        m.qtyBase = r.qtyInput * conversionFactor r.unitInput ∧
        m.unitCostBase = some (c / conversionFactor r.unitInput) ∧
        m.qtyBase * (c / conversionFactor r.unitInput) = r.qtyInput * c) := by
  constructor
  · intro u qty cost
    exact ⟨rfl, rfl, convert_value_invariant u qty cost⟩
  · intro r m c hok hc
    unfold validateReceive at hok
    rw [hc] at hok
    split at hok
    · exact absurd hok (by simp)
    dsimp only at hok
    split at hok
    · exact absurd hok (by simp)
    split at hok
    · exact absurd hok (by simp)
    have hm := Except.ok.inj hok
    refine ⟨?_, ?_, ?_⟩
    · rw [← hm]
      rfl
    · rw [← hm]
      rfl
    · rw [← hm]
      show (r.qtyInput * conversionFactor r.unitInput) * (c / conversionFactor r.unitInput)
        = r.qtyInput * c
      exact convert_value_invariant r.unitInput r.qtyInput c

/-- Concrete instance of `c4_unit_conversion_round_trip` at the RECEIVE
of spec scenario 2. -/
theorem c4_unit_conversion_round_trip_witness :
    receive100Intent.qtyBase = receive100.qtyInput * conversionFactor receive100.unitInput ∧
    receive100Intent.unitCostBase = some (51 / 2 / conversionFactor receive100.unitInput) ∧
    receive100Intent.qtyBase * (51 / 2 / conversionFactor receive100.unitInput) =
      receive100.qtyInput * (51 / 2) :=
  c4_unit_conversion_round_trip.2 receive100 receive100Intent (51 / 2)
    (by norm_num [validateReceive, receive100, receive100Intent, convertToBase, conversionFactor])
    rfl

/-! ## Claim C5 -/

/-- Claim C5: a CONSUME request whose work order resolves but is not OPEN
is rejected with ReferenceError and changes nothing; a CONSUME request is
accepted only when its work order resolves to an OPEN work order, and the
accepted intent's cost center is the one derived from that work order;
and a caller-supplied cost_center_id is ignored: the validator's result
does not depend on it. -/
theorem c5_consume_work_order_rules :
    (∀ (role : SpecRole) (md : MasterData) (s : LedgerState) (r : MovementRequest)
        (wo : WorkOrder),
        r.movementType = .CONSUME →
        authorizationGate role .CONSUME = true →
        r.legacyCostCenter = none → r.legacyCostElement = none →
        0 < r.qtyInput → r.unitInput = .PCS →
        r.costElementId.isSome = true →
        requestWorkOrder md r = some wo →
        wo.status ≠ .OPEN →
        processMovement role md s r = (s, some (.referenceError "work_order"))) ∧
    (∀ (md : MasterData) (r : MovementRequest) (m : MovementIntent),
        r.movementType = .CONSUME →
        validateAndAllocate md r = .ok m →
        (requestWorkOrder md r).map WorkOrder.status = some .OPEN ∧
        m.costCenterRef = (requestWorkOrder md r).map WorkOrder.costCenter) ∧
    (∀ (md : MasterData) (r : MovementRequest) (cc : Option Nat),
        r.movementType = .CONSUME →
        validateAndAllocate md { r with costCenterId := cc } =
          validateAndAllocate md r) := by
  refine ⟨?_, ?_, ?_⟩
  · intro role md s r wo hmt hauth hlc hle hq hu hce hwo hstat
    obtain ⟨woId, hwid, hfind⟩ :
        ∃ woId, r.workOrderId = some woId ∧ findWorkOrder md woId = some wo := by
      unfold requestWorkOrder at hwo
      cases hw : r.workOrderId with
      | none => rw [hw] at hwo; exact absurd hwo (by simp)
      | some i =>
        rw [hw] at hwo
        exact ⟨i, rfl, by simpa using hwo⟩
    obtain ⟨ceId, hceid⟩ := Option.isSome_iff_exists.mp hce
    have hq2 : ¬ r.qtyInput ≤ 0 := not_le.mpr hq
    unfold processMovement checkDeprecatedFields validateAndAllocate validateConsume
    rw [hmt, hauth, hlc, hle, hwid, hceid, hu]
    simp [hq2, hfind, hstat]
  · intro md r m hmt hok
    have hva : validateAndAllocate md r = validateConsume md r := by
      unfold validateAndAllocate
      rw [hmt]
    rw [hva] at hok
    unfold validateConsume at hok
    split at hok
    · exact absurd hok (by simp)
    split at hok
    · exact absurd hok (by simp)
    split at hok
    · exact absurd hok (by simp)
    rename_i woId hwid
    split at hok
    · exact absurd hok (by simp)
    rename_i ceId hceid
    split at hok
    · exact absurd hok (by simp)
    rename_i wo hfind
    split at hok
    · exact absurd hok (by simp)
    rename_i hstat
    split at hok
    · exact absurd hok (by simp)
    rename_i ce hfce
    split at hok
    · exact absurd hok (by simp)
    rename_i hact
    have hm := Except.ok.inj hok
    have hwo : requestWorkOrder md r = some wo := by
      unfold requestWorkOrder
      rw [hwid]
      simpa using hfind
    have hopen : wo.status = .OPEN := not_ne_iff.mp hstat
    constructor
    · rw [hwo]
      simp [hopen]
    · rw [hwo, ← hm]
      rfl
  · intro md r cc hmt
    cases r with
    | mk productId movementType qtyInput unitInput unitCostInput costCenterId
        costElementId workOrderId legacyCostCenter legacyCostElement note =>
      subst hmt
      rfl

/-- Concrete instance of `c5_consume_work_order_rules`: the CLOSED work
order of scenario 4 is rejected with ReferenceError and no change; the
OPEN work order is accepted with its own cost center; a caller-supplied
cost_center_id makes no difference. -/
theorem c5_consume_work_order_rules_witness :
    processMovement .MANAGER sampleMD initialLedger consumeClosedReq =
      (initialLedger, some (.referenceError "work_order")) ∧
    ((requestWorkOrder sampleMD consumeOpenReq).map WorkOrder.status = some .OPEN ∧
     consumeOpenIntent.costCenterRef =
       (requestWorkOrder sampleMD consumeOpenReq).map WorkOrder.costCenter) ∧
    validateAndAllocate sampleMD { consumeOpenReq with costCenterId := some 99 } =
      validateAndAllocate sampleMD consumeOpenReq := by
  refine ⟨?_, ?_, ?_⟩
  · exact c5_consume_work_order_rules.1 .MANAGER sampleMD initialLedger consumeClosedReq
      woClosed rfl (by decide) rfl rfl (by norm_num [consumeClosedReq]) rfl rfl rfl (by decide)
  · exact c5_consume_work_order_rules.2.1 sampleMD consumeOpenReq consumeOpenIntent rfl
      (by norm_num [validateAndAllocate, validateConsume, consumeOpenReq, consumeOpenIntent,
        findWorkOrder_sample_8, findCostElement_sample_1, woOpen])
  · exact c5_consume_work_order_rules.2.2 sampleMD consumeOpenReq (some 99) rfl

/-! ## Claim C6 -/

/-- Claim C6: creating a MATERIAL product with cost below 1.00 fails with
the ValidationError and creates nothing; a MATERIAL product with
cost ≥ 1.00 is not rejected by this rule. -/
theorem c6_material_cost_floor :
    ∀ p : ProductInput,
      (p.productType = .MATERIAL → p.cost < 1 →
        createProduct p = .error (.validationError "Material cost must be >= 1.00 THB")) ∧
      (p.productType = .MATERIAL → 1 ≤ p.cost → createProduct p = .ok p) := by
  intro p
  constructor
  · intro ht hc
    unfold createProduct
    rw [if_pos ⟨ht, hc⟩]
  · intro ht hc
    unfold createProduct
    rw [if_neg (fun h => absurd h.2 (not_lt.mpr hc))]

/-- Concrete instance of `c6_material_cost_floor`: scenario 1 (cost 0.50
rejected) and the documented steel-rod material at cost 25.50 accepted. -/
theorem c6_material_cost_floor_witness :
    createProduct cheapMaterial =
      .error (.validationError "Material cost must be >= 1.00 THB") ∧
    createProduct steelRod = .ok steelRod :=
  ⟨(c6_material_cost_floor cheapMaterial).1 rfl (by norm_num [cheapMaterial]),
   (c6_material_cost_floor steelRod).2 rfl (by norm_num [steelRod])⟩

/-! ## Claim C7 -/

/-- Claim C7: an authorized movement request that still carries a legacy
string-coded cost_center or cost_element field is rejected with the
ValidationError variant naming the deprecated field, and no state is
persisted. -/
theorem c7_deprecated_fields_rejected :
    ∀ (role : SpecRole) (md : MasterData) (s : LedgerState) (r : MovementRequest),
      authorizationGate role r.movementType = true →
      (r.legacyCostCenter ≠ none ∨ r.legacyCostElement ≠ none) →
      (processMovement role md s r).1 = s ∧
      ((processMovement role md s r).2 = some (.deprecatedFieldError "cost_center") ∨
       (processMovement role md s r).2 = some (.deprecatedFieldError "cost_element")) := by
  intro role md s r hauth hleg
  unfold processMovement checkDeprecatedFields
  rw [hauth]
  rw [if_neg (by simp)]
  cases hcc : r.legacyCostCenter with
  | some v => simp
  | none =>
    cases hce : r.legacyCostElement with
    | some v => simp
    | none =>
      rcases hleg with h | h
      · exact absurd hcc h
      · exact absurd hce h

/-- Concrete instance of `c7_deprecated_fields_rejected`: scenario 5, an
ISSUE request carrying the legacy string `cost_center` field. -/
theorem c7_deprecated_fields_rejected_witness :
    (processMovement .MANAGER sampleMD initialLedger legacyFieldReq).1 = initialLedger ∧
    ((processMovement .MANAGER sampleMD initialLedger legacyFieldReq).2 =
        some (.deprecatedFieldError "cost_center") ∨
     (processMovement .MANAGER sampleMD initialLedger legacyFieldReq).2 =
        some (.deprecatedFieldError "cost_element")) :=
  c7_deprecated_fields_rejected .MANAGER sampleMD initialLedger legacyFieldReq (by decide)
    (Or.inl (by simp [legacyFieldReq]))

/-! ## Claim C8 -/

/-- Claim C8: with 100 on hand, the two concurrent ISSUE requests of 60
units — serialized in either order by the per-product lock — give exactly
one committed movement (balance 40) and one InsufficientStockError, and
the final balance is 40 in both orders. -/
theorem c8_concurrent_issue_serialized :
    ((processMovement .MANAGER sampleMD s100 issue60A).2 = none ∧
     (processMovement .MANAGER sampleMD s100 issue60A).1.onHand 1 = 40 ∧
     (processMovement .MANAGER sampleMD
        (processMovement .MANAGER sampleMD s100 issue60A).1 issue60B).2 =
          some .insufficientStockError ∧
     (processMovement .MANAGER sampleMD
        (processMovement .MANAGER sampleMD s100 issue60A).1 issue60B).1.onHand 1 = 40) ∧
    ((processMovement .MANAGER sampleMD s100 issue60B).2 = none ∧
     (processMovement .MANAGER sampleMD s100 issue60B).1.onHand 1 = 40 ∧
     (processMovement .MANAGER sampleMD
        (processMovement .MANAGER sampleMD s100 issue60B).1 issue60A).2 =
          some .insufficientStockError ∧
     (processMovement .MANAGER sampleMD
        (processMovement .MANAGER sampleMD s100 issue60B).1 issue60A).1.onHand 1 = 40) := by
  norm_num [processMovement, authorizationGate, specAuthorizationMatrix, checkDeprecatedFields,
    validateAndAllocate, validateIssue, issue60A, issue60B, findCostCenter_sample_1,
    findCostElement_sample_1, ledgerWrite, s100]

/-! ## Claim C9 -/

/-- `x || false` never evaluates to undefined. -/
theorem jsOrFalse_ne_undefined (v : JsValue) : jsOrFalse v ≠ .undefined := by
  intro h
  unfold jsOrFalse at h
  split at h
  · rename_i ht
    rw [h] at ht
    exact absurd ht (by simp [JsValue.truthy])
  · exact absurd h (by simp)

/-- `x || false` evaluates to the boolean true exactly when x is the
boolean true. -/
theorem jsOrFalse_boolean_true_iff (v : JsValue) :
    jsOrFalse v = .boolean true ↔ v = .boolean true := by
  unfold jsOrFalse
  split
  · exact Iff.rfl
  · rename_i h
    constructor
    · intro hb
      exact absurd hb (by simp)
    · intro hv
      rw [hv] at h
      exact absurd rfl h

/-- A permission-object access evaluates to a boolean exactly on the own
keys: every inherited or missing key yields a function, an object or
undefined. -/
theorem permObjectGet_boolean_iff (own : List (String × Bool)) (key : String) (b : Bool) :
    permObjectGet own key = .boolean b ↔ own.lookup key = some b := by
  cases hl : own.lookup key with
  | some c =>
    have hval : permObjectGet own key = .boolean c := by
      unfold permObjectGet
      rw [hl]
    rw [hval]
    simp
  | none =>
    have hval : permObjectGet own key =
        (if key = "constructor" then .builtinFun "Object"
         else if objectProtoMethods.contains key then .builtinFun key
         else if key = "__proto__" then .objectProto
         else .undefined) := by
      unfold permObjectGet
      rw [hl]
    rw [hval]
    constructor
    · intro h
      split at h
      · exact absurd h (by simp)
      split at h
      · exact absurd h (by simp)
      split at h
      · exact absurd h (by simp)
      · exact absurd h (by simp)
    · intro h
      exact absurd h (by simp)

/-- A property access on an inherited method never returns a boolean. -/
theorem functionGet_ne_value_boolean (fname key : String) (b : Bool) :
    functionGet fname key ≠ .value (.boolean b) := by
  intro h
  unfold functionGet at h
  split at h
  · exact absurd h (by simp)
  split at h
  · exact absurd h (by simp)
  split at h
  · exact absurd h (by simp)
  split at h
  · exact absurd h (by simp)
  split at h
  · exact absurd h (by simp)
  split at h
  · exact absurd h (by simp)
  split at h
  · exact absurd h (by simp)
  · exact absurd h (by simp)

/-- A property access on Object.prototype itself never returns a
boolean. -/
theorem objectProtoOwnGet_ne_boolean (key : String) (b : Bool) :
    objectProtoOwnGet key ≠ .boolean b := by
  intro h
  unfold objectProtoOwnGet at h
  split at h
  · exact absurd h (by simp)
  split at h
  · exact absurd h (by simp)
  split at h
  · exact absurd h (by simp)
  · exact absurd h (by simp)

/-- An own permission key returns its stored boolean. -/
theorem hasPermission_own {role permission : String} {own : List (String × Bool)} {b : Bool}
    (hrole : rolePermissionsGet role = .permObject own)
    (hl : own.lookup permission = some b) :
    hasPermission role permission = .value (.boolean b) := by
  unfold hasPermission
  rw [hrole]
  show JsOutcome.value (jsOrFalse (permObjectGet own permission)) = .value (.boolean b)
  unfold permObjectGet
  rw [hl]
  show JsOutcome.value (jsOrFalse (.boolean b)) = .value (.boolean b)
  cases b <;> rfl

/-- Claim C9 counterexample: for the defined role 'owner' and the key
'toString' — not a permission defined for any role — hasPermission does
not return false: the JavaScript prototype chain makes
`ROLE_PERMISSIONS['owner']['toString']` the inherited
Object.prototype.toString function, which is truthy, so `|| false`
passes it through; and with 'toString' as the role,
`ROLE_PERMISSIONS['toString']` is itself that inherited function, so
hasPermission('toString','name') returns the string 'toString'. -/
theorem c9_prototype_chain_counterexample :
    hasPermission "owner" "toString" = .value (.builtinFun "toString") ∧
    JsValue.truthy (.builtinFun "toString") = true ∧
    hasPermission "toString" "name" = .value (.string "toString") ∧
    JsValue.truthy (.string "toString") = true := by
  refine ⟨by decide, rfl, by decide, by decide⟩

/-- Claim C9 (amended): on own keys the original claim holds — a defined
role with an own permission key returns the stored boolean, and the
result is the boolean true exactly when the key is mapped to true for
the role; a role string resolving to neither an own key nor a prototype
property gives false, as does a permission key resolving to neither an
own key of the role's object nor a prototype property; the entry lookup
hits a permission object exactly for the three valid role strings; a
returned value is never undefined. But keys inherited from the
prototype chain escape the original claim: they return the inherited
truthy value instead of false, and the restricted function properties
('caller', 'arguments') reached through an inherited method even
throw. -/
theorem c9_hasPermission_prototype_chain :
    (∀ role permission : String,
        hasPermission role permission = .value (.boolean true) ↔
        ownPermission role permission = some true) ∧
    (∀ (role permission : String) (own : List (String × Bool)) (b : Bool),
        rolePermissionsGet role = .permObject own →
        own.lookup permission = some b →
        hasPermission role permission = .value (.boolean b)) ∧
    (∀ role permission : String,
        rolePermissionsGet role = .undefined →
        hasPermission role permission = .value (.boolean false)) ∧
    (∀ (role permission : String) (own : List (String × Bool)),
        rolePermissionsGet role = .permObject own →
        own.lookup permission = none →
        permission ≠ "constructor" →
        objectProtoMethods.contains permission = false →
        permission ≠ "__proto__" →
        hasPermission role permission = .value (.boolean false)) ∧
    (∀ role : String, (rolePermissionsGet role).isPermObject = isValidRole role) ∧
    (∀ (role permission : String) (v : JsValue),
        hasPermission role permission = .value v → v ≠ .undefined) ∧
    hasPermission "toString" "caller" =
      .thrown { name := "TypeError"
                message := "restricted function properties may not be accessed" } := by
  refine ⟨?_, ?_, ?_, ?_, ?_, ?_, by decide⟩
  · intro role permission
    constructor
    · intro h
      unfold hasPermission at h
      split at h
      · simp [jsOrFalse, JsValue.truthy] at h
      · rename_i own heq
        have hb : permObjectGet own permission = .boolean true :=
          (jsOrFalse_boolean_true_iff _).mp (JsOutcome.value.inj h)
        have hl : own.lookup permission = some true :=
          (permObjectGet_boolean_iff own permission true).mp hb
        unfold ownPermission
        rw [heq]
        exact hl
      · rename_i fname heq
        split at h
        · exact absurd h (by simp)
        rename_i v hfg
        have hv : v = .boolean true :=
          (jsOrFalse_boolean_true_iff v).mp (JsOutcome.value.inj h)
        rw [hv] at hfg
        exact absurd hfg (functionGet_ne_value_boolean fname permission true)
      · rename_i heq
        have hb : objectProtoOwnGet permission = .boolean true :=
          (jsOrFalse_boolean_true_iff _).mp (JsOutcome.value.inj h)
        exact absurd hb (objectProtoOwnGet_ne_boolean permission true)
    · intro h
      unfold ownPermission at h
      split at h
      · rename_i own heq
        exact hasPermission_own heq h
      · exact absurd h (by simp)
  · intro role permission own b hrole hl
    exact hasPermission_own hrole hl
  · intro role permission hrole
    unfold hasPermission
    rw [hrole]
    rfl
  · intro role permission own hrole hl hc hm hp
    unfold hasPermission
    rw [hrole]
    show JsOutcome.value (jsOrFalse (permObjectGet own permission)) = .value (.boolean false)
    unfold permObjectGet
    rw [hl]
    show JsOutcome.value (jsOrFalse
      (if permission = "constructor" then .builtinFun "Object"
       else if objectProtoMethods.contains permission then .builtinFun permission
       else if permission = "__proto__" then .objectProto
       else .undefined)) = .value (.boolean false)
    have hm2 : ¬ (objectProtoMethods.contains permission = true) := by
      rw [hm]
      exact Bool.false_ne_true
    rw [if_neg hc, if_neg hm2, if_neg hp]
    rfl
  · intro role
    by_cases h1 : role = "owner"
    · simp [rolePermissionsGet, RoleEntry.isPermObject, isValidRole, h1]
    by_cases h2 : role = "manager"
    · simp [rolePermissionsGet, RoleEntry.isPermObject, isValidRole, h1, h2]
    by_cases h3 : role = "staff"
    · simp [rolePermissionsGet, RoleEntry.isPermObject, isValidRole, h1, h2, h3]
    have hrhs : isValidRole role = false := by simp [isValidRole, h1, h2, h3]
    rw [hrhs]
    unfold rolePermissionsGet
    rw [if_neg h1, if_neg h2, if_neg h3]
    split
    · rfl
    split
    · rfl
    split <;> rfl
  · intro role permission v h
    unfold hasPermission at h
    split at h
    · rw [← JsOutcome.value.inj h]
      exact jsOrFalse_ne_undefined _
    · rw [← JsOutcome.value.inj h]
      exact jsOrFalse_ne_undefined _
    · split at h
      · exact absurd h (by simp)
      · rw [← JsOutcome.value.inj h]
        exact jsOrFalse_ne_undefined _
    · rw [← JsOutcome.value.inj h]
      exact jsOrFalse_ne_undefined _

/-- Concrete instance of `c9_hasPermission_prototype_chain`: an own key
mapped true, an own key mapped false, an unknown role, an undefined
permission key, and the never-undefined clause, each at a concrete
input. -/
theorem c9_hasPermission_prototype_chain_witness :
    hasPermission "owner" "canViewProfit" = .value (.boolean true) ∧
    hasPermission "manager" "canViewProfit" = .value (.boolean false) ∧
    hasPermission "guest" "canViewRevenue" = .value (.boolean false) ∧
    hasPermission "owner" "canViewFinancials" = .value (.boolean false) ∧
    JsValue.boolean true ≠ JsValue.undefined := by
  refine ⟨?_, ?_, ?_, ?_, ?_⟩
  · exact c9_hasPermission_prototype_chain.2.1 "owner" "canViewProfit" ownerPermissions true
      (by decide) (by decide)
  · exact c9_hasPermission_prototype_chain.2.1 "manager" "canViewProfit" managerPermissions false
      (by decide) (by decide)
  · exact c9_hasPermission_prototype_chain.2.2.1 "guest" "canViewRevenue" (by decide)
  · exact c9_hasPermission_prototype_chain.2.2.2.1 "owner" "canViewFinancials" ownerPermissions
      (by decide) (by decide) (by decide) (by decide) (by decide)
  · exact c9_hasPermission_prototype_chain.2.2.2.2.2.1 "owner" "canViewProfit" (.boolean true)
      (by decide)

/-! ## Claim C10 -/

/-- Claim C10 counterexample: on a concrete non-null financial object and
the owner role, shapeFinancialsByRole does not return null: the module
never imports hasPermission, so the permission check throws a
ReferenceError. -/
theorem c10_throws_counterexample :
    shapeFinancialsByRole (some sampleFinancials) "owner" =
      .thrown { name := "ReferenceError", message := "hasPermission is not defined" } := by
  decide

/-- Claim C10 (amended): for every non-null financial object and every
truthy (non-empty) role string — the owner included — shapeFinancialsByRole
throws `ReferenceError: hasPermission is not defined`, because the module
never imports hasPermission; it returns null exactly when the input is
null or the role is falsy; and on no input does it return the financial
summary, so no caller receives financial data through this function. -/
theorem c10_financials_never_returned :
    (∀ (fin : Financials) (role : String), role ≠ "" →
        shapeFinancialsByRole (some fin) role =
          .thrown { name := "ReferenceError", message := "hasPermission is not defined" }) ∧
    (∀ role : String, shapeFinancialsByRole none role = .value none) ∧
    (∀ fin : Financials, shapeFinancialsByRole (some fin) "" = .value none) ∧
    (∀ (raw : Option Financials) (role : String) (fin : Financials),
        shapeFinancialsByRole raw role ≠ .value (some fin)) := by
  refine ⟨?_, ?_, ?_, ?_⟩
  · intro fin role h
    unfold shapeFinancialsByRole
    rw [if_neg h]
  · intro role
    rfl
  · intro fin
    unfold shapeFinancialsByRole
    rw [if_pos rfl]
  · intro raw role fin h
    cases raw with
    | none =>
      unfold shapeFinancialsByRole at h
      exact absurd h (by simp)
    | some f =>
      unfold shapeFinancialsByRole at h
      by_cases hr : role = ""
      · rw [if_pos hr] at h
        exact absurd h (by simp)
      · rw [if_neg hr] at h
        exact absurd h (by simp)

/-- Concrete instance of `c10_financials_never_returned`. -/
theorem c10_financials_never_returned_witness :
    shapeFinancialsByRole (some sampleFinancials) "manager" =
      .thrown { name := "ReferenceError", message := "hasPermission is not defined" } ∧
    shapeFinancialsByRole none "owner" = .value none ∧
    shapeFinancialsByRole (some sampleFinancials) "" = .value none ∧
    shapeFinancialsByRole (some sampleFinancials) "owner" ≠ .value (some sampleFinancials) := by
  refine ⟨?_, ?_, ?_, ?_⟩
  · exact c10_financials_never_returned.1 sampleFinancials "manager" (by decide)
  · exact c10_financials_never_returned.2.1 "owner"
  · exact c10_financials_never_returned.2.2.1 sampleFinancials
  · exact c10_financials_never_returned.2.2.2 (some sampleFinancials) "owner" sampleFinancials

end SmartERP
